import Mathlib

/-!
Verification development for the SWIFT surface-water pipeline
(NASA-DEVELOP/SWIFT, Google Earth Engine JavaScript).

The source scripts are declarative pipelines over Earth Engine images and
collections.  We shallow-embed them as follows:

* a band value is an exact rational (`ℚ`); the band set of an optical image
  is the six renamed bands blue .. SWIR2;
* an image pixel that may be masked is an `Option`; `none` is "no data";
* an image collection is a `List` of images, ordered as in the source;
* platform primitives that the scripts call as black boxes (the median
  reducer, the sum region-reducer on an empty region, the mosaic compositor,
  division by zero masking inside normalizedDifference) are modelled from
  the specification, and each such definition says so in its doc comment.

Definitions keep the names of the JavaScript values they embed
(`harmonize`, `waterMapping`, `windMask`, `mosaicByDate`, `maskNonWater`,
`calculateWaterArea_AOI`, ...), from src/Scripts/constructTimeSeries.js
unless stated otherwise.
-/

/-- The six renamed optical bands (constructTimeSeries.js lines 119-120:
select SR_B2..SR_B7 as blue, green, red, NIR, SWIR1, SWIR2). -/
inductive Band
  | blue | green | red | NIR | SWIR1 | SWIR2
deriving DecidableEq, Repr

/-- Sentinel-2 band pass adjustment gain coefficients, one per band
(constructTimeSeries.js line 125). -/
def GAIN : Band → ℚ
  | Band.blue => 0.9778
  | Band.green => 1.0053
  | Band.red => 0.9765
  | Band.NIR => 0.9983
  | Band.SWIR1 => 0.9987
  | Band.SWIR2 => 1.003

/-- Sentinel-2 band pass adjustment bias coefficients, one per band
(constructTimeSeries.js line 126). -/
def BIAS : Band → ℚ
  | Band.blue => -0.00411
  | Band.green => -0.00093
  | Band.red => 0.00094
  | Band.NIR => -0.0001
  | Band.SWIR1 => -0.0015
  | Band.SWIR2 => -0.0012

/-- Embedding of `harmonize` (constructTimeSeries.js lines 108-111):
`S2im.multiply(GAIN).add(BIAS)`, applied band-wise. -/
def harmonize (x : Band → ℚ) : Band → ℚ :=
  fun b => x b * GAIN b + BIAS b

theorem GAIN_ne_zero : ∀ b : Band, GAIN b ≠ 0 := by
  intro b; cases b <;> norm_num [GAIN]

/-- The four water-detection indices produced by `waterMapping`, in the
order of the select on line 178 of constructTimeSeries.js
(the first script names the third band TWC, SWIFT_classify names it TCW). -/
structure WaterIndices where
  MNDWI : Option ℚ
  AWEIsh : ℚ
  TCW : ℚ
  NDVI : Option ℚ
deriving DecidableEq, Repr

/-- Modelled from the spec: the raster service normalizedDifference
primitive, `(first - second) / (first + second)`; a zero denominator
yields "no data" for the pixel of this index band only. -/
def normalizedDifference (first second : ℚ) : Option ℚ :=
  if first + second = 0 then none else some ((first - second) / (first + second))

/-- Embedding of `waterMapping` (constructTimeSeries.js lines 142-179):
MNDWI as the normalized difference of green and SWIR1, AWEIsh and TCW by
the expression strings on lines 150 and 161, NDVI as the normalized
difference of NIR and red. -/
def waterMapping (im : Band → ℚ) : WaterIndices where
  MNDWI := normalizedDifference (im Band.green) (im Band.SWIR1)
  AWEIsh := im Band.blue + 2.5 * im Band.green
      - 1.5 * (im Band.NIR + im Band.SWIR1) - 0.25 * im Band.SWIR2
  TCW := 0.1511 * im Band.blue + 0.1973 * im Band.green + 0.3283 * im Band.red
      + 0.3407 * im Band.NIR + (-0.7117) * im Band.SWIR1 + (-0.4559) * im Band.SWIR2
  NDVI := normalizedDifference (im Band.NIR) (im Band.red)

/-- An optical image of a query collection before quality masking, as the
filters of constructTimeSeries.js lines 259-277 see it: membership of the
bounds filter and the date filter, the acquisition month, the per-image
cloud-cover metadata, the QA band value at the pixel under study
(QA_PIXEL for Landsat 8, QA60 for Sentinel-2), and the renamed
surface-reflectance bands at that pixel. -/
structure OpticalRaw where
  inBounds : Bool
  inDateRange : Bool
  month : ℕ
  cloudCover : ℚ
  qa : ℕ
  sr : Band → ℚ

/-- Embedding of `L8QAMask` (constructTimeSeries.js lines 84-101): keep the
pixel when QA bits 3 (cloud shadow) and 5 (cloud) are clear, and scale the
remaining bands by 1/10000. -/
def L8QAMask (im : OpticalRaw) : Option (Band → ℚ) :=
  if im.qa &&& (1 <<< 3) = 0 ∧ im.qa &&& (1 <<< 5) = 0 then
    some (fun b => im.sr b / 10000)
  else none

/-- Embedding of `S2QAMask` (constructTimeSeries.js lines 103-106): keep the
pixel when the QA60 band value is below 1. -/
def S2QAMask (im : OpticalRaw) : Option (Band → ℚ) :=
  if im.qa < 1 then some im.sr else none

/-- The shared metadata filter chain of the optical query collections
(constructTimeSeries.js lines 259-263 and 268-272, and SWIFT_classify
lines 708-712 and 717-721): filterBounds, filterDate, calendarRange(3, 11,
month), then the cloud-cover filter (threshold 10 in constructTimeSeries,
50 in SWIFT_classify, kept as a parameter). -/
def opticalQueryFiltered (cloudThresh : ℚ) (ims : List OpticalRaw) : List OpticalRaw :=
  (((ims.filter (fun im => im.inBounds)).filter
      (fun im => im.inDateRange)).filter
      (fun im => decide (3 ≤ im.month) && decide (im.month ≤ 11))).filter
      (fun im => decide (im.cloudCover < cloudThresh))

/-- The Landsat 8 query images handed to classification: the filtered
collection mapped through L8QAMask (constructTimeSeries.js lines 259-267).
No gain/bias adjustment appears in this chain. -/
def L8classInput (cloudThresh : ℚ) (ims : List OpticalRaw) : List (Option (Band → ℚ)) :=
  (opticalQueryFiltered cloudThresh ims).map L8QAMask

/-- The Sentinel-2 query images handed to classification: the filtered
collection mapped through S2QAMask and then `harmonize`
(constructTimeSeries.js lines 268-277, `.map(harmonize)` at line 276). -/
def S2classInput (cloudThresh : ℚ) (ims : List OpticalRaw) : List (Option (Band → ℚ)) :=
  (opticalQueryFiltered cloudThresh ims).map (fun im => (S2QAMask im).map harmonize)

/-- C4: for every optical pixel with the six bands, the extractor outputs
equal the closed-form MNDWI, AWEIsh, TCW and NDVI formulas (exactly, in the
rational embedding, hence within every positive tolerance), and a zero
denominator in a ratio index yields "no data" for that index only: the
other indices of the same pixel are still produced by their formulas. -/
theorem waterMapping_formulas (x : Band → ℚ) :
    (x Band.green + x Band.SWIR1 ≠ 0 →
      (waterMapping x).MNDWI =
        some ((x Band.green - x Band.SWIR1) / (x Band.green + x Band.SWIR1)))
    ∧ (waterMapping x).AWEIsh =
        x Band.blue + 2.5 * x Band.green
          - 1.5 * (x Band.NIR + x Band.SWIR1) - 0.25 * x Band.SWIR2
    ∧ (waterMapping x).TCW =
        0.1511 * x Band.blue + 0.1973 * x Band.green + 0.3283 * x Band.red
          + 0.3407 * x Band.NIR - 0.7117 * x Band.SWIR1 - 0.4559 * x Band.SWIR2
    ∧ (x Band.NIR + x Band.red ≠ 0 →
      (waterMapping x).NDVI =
        some ((x Band.NIR - x Band.red) / (x Band.NIR + x Band.red)))
    ∧ (x Band.green + x Band.SWIR1 = 0 → (waterMapping x).MNDWI = none)
    ∧ (x Band.NIR + x Band.red = 0 → (waterMapping x).NDVI = none) := by
  refine ⟨fun h => ?_, ?_, ?_, fun h => ?_, fun h => ?_, fun h => ?_⟩
  · simp [waterMapping, normalizedDifference, h]
  · rfl
  · simp [waterMapping]; ring
  · simp [waterMapping, normalizedDifference, h]
  · simp [waterMapping, normalizedDifference, h]
  · simp [waterMapping, normalizedDifference, h]

theorem waterMapping_formulas_witness :
    ((fun _ : Band => (2 : ℚ)) Band.green + (fun _ : Band => (2 : ℚ)) Band.SWIR1 ≠ 0)
    ∧ (waterMapping (fun _ => 2)).MNDWI = some 0
    ∧ (waterMapping (fun _ => 2)).AWEIsh = 0.5 := by
  have h := waterMapping_formulas (fun _ => 2)
  refine ⟨by norm_num, ?_, ?_⟩
  · rw [h.1 (by norm_num)]; norm_num
  · rw [h.2.1]; norm_num

/-- C5: the harmonizer is the per-band affine transform
`y = gain * x + bias` with the six fixed coefficient pairs of lines
125-126; inverting it by `(y - bias) / gain` recovers the original band
vector exactly (hence within every tolerance) for all six bands; and in
the query pipelines the transform is applied to the Sentinel-2 chain only,
the Landsat 8 chain being the QA mask alone. -/
theorem harmonize_roundtrip :
    (∀ (x : Band → ℚ) (b : Band), harmonize x b = GAIN b * x b + BIAS b)
    ∧ (∀ (x : Band → ℚ) (b : Band), (harmonize x b - BIAS b) / GAIN b = x b)
    ∧ (GAIN Band.blue = 0.9778 ∧ GAIN Band.green = 1.0053 ∧ GAIN Band.red = 0.9765
        ∧ GAIN Band.NIR = 0.9983 ∧ GAIN Band.SWIR1 = 0.9987 ∧ GAIN Band.SWIR2 = 1.003)
    ∧ (BIAS Band.blue = -0.00411 ∧ BIAS Band.green = -0.00093 ∧ BIAS Band.red = 0.00094
        ∧ BIAS Band.NIR = -0.0001 ∧ BIAS Band.SWIR1 = -0.0015 ∧ BIAS Band.SWIR2 = -0.0012)
    ∧ (∀ (t : ℚ) (ims : List OpticalRaw),
        S2classInput t ims =
          (opticalQueryFiltered t ims).map (fun im => (S2QAMask im).map harmonize))
    ∧ (∀ (t : ℚ) (ims : List OpticalRaw),
        L8classInput t ims = (opticalQueryFiltered t ims).map L8QAMask) := by
  refine ⟨fun x b => by rw [harmonize, mul_comm], fun x b => ?_,
    ⟨rfl, rfl, rfl, rfl, rfl, rfl⟩, ⟨rfl, rfl, rfl, rfl, rfl, rfl⟩,
    fun t ims => rfl, fun t ims => rfl⟩
  rw [harmonize, add_sub_cancel_right, mul_div_cancel_right₀ _ (GAIN_ne_zero b)]

/-- Insertion of a rational into a sorted list, for the median model. -/
def insertSorted (x : ℚ) : List ℚ → List ℚ
  | [] => [x]
  | y :: ys => if x ≤ y then x :: y :: ys else y :: insertSorted x ys

/-- Sorting by repeated insertion, for the median model. -/
def sortQ (l : List ℚ) : List ℚ :=
  l.foldr insertSorted []

/-- Modelled from the spec: the raster service per-pixel median reducer
used by `collection.median()`; with an even number of inputs the tie
resolves to the lower middle value, and an empty input set yields
"no data" rather than a crash. -/
def median (l : List ℚ) : Option ℚ :=
  (sortQ l).get? ((l.length - 1) / 2)

/-- A classified image entering the temporal compositor: its
system:time_start value and its (possibly masked) classification label at
the pixel under study. -/
structure ClassifiedImage where
  timeStart : ℕ
  pix : Option ℚ
deriving DecidableEq, Repr

/-- A composite produced by the compositor, with the metadata set on it
(constructTimeSeries.js lines 358-360): the per-pixel value, the
system:time_start stamp, and the numbImages count. -/
structure Composite where
  pix : Option ℚ
  timeStart : ℕ
  numbImages : ℕ
deriving DecidableEq, Repr

/-- Embedding of `mosaicByDate` (constructTimeSeries.js lines 357-362):
the composite is `collection.median()` over the WHOLE merged collection —
the date argument is used only for the metadata stamps — and numbImages is
`collection.size()`, again of the whole collection. -/
def mosaicByDate (collection : List ClassifiedImage) (dateMillis : ℕ) : Composite where
  pix := median (collection.filterMap (fun im => im.pix))
  timeStart := dateMillis
  numbImages := collection.length

/-- Modelled from the spec: the per-period composite the specification
describes — the per-pixel median over exactly the classified, masked
images acquired within the period starting at the given date, with
source_image_count equal to the number of contributing images. -/
def mosaicByDateSpec (collection : List ClassifiedImage)
    (dateMillis periodMillis : ℕ) : Composite :=
  let contributing := collection.filter
    (fun im => decide (dateMillis ≤ im.timeStart)
      && decide (im.timeStart < dateMillis + periodMillis))
  { pix := median (contributing.filterMap (fun im => im.pix))
    timeStart := dateMillis
    numbImages := contributing.length }

/-- One week of milliseconds, the period step of SWIFT_classify line 811. -/
def weekMillis : ℕ := 604800000

/-- A three-image merged collection spanning two weekly periods: one water
image in the first period, two non-water images in the second. -/
def twoPeriodCollection : List ClassifiedImage :=
  [⟨0, some 1⟩, ⟨weekMillis, some 0⟩, ⟨weekMillis, some 0⟩]

/-- C2 fails on the code: `mosaicByDate` never filters the collection by
its date argument, so the first-period composite is the median over all
three images (label 0) with numbImages 3, while the per-period composite
of the specification is the median over the single first-period image
(label 1) with source_image_count 1. -/
theorem mosaicByDate_ignores_period :
    (mosaicByDate twoPeriodCollection 0).pix = some 0
    ∧ (mosaicByDate twoPeriodCollection 0).numbImages = 3
    ∧ (mosaicByDateSpec twoPeriodCollection 0 weekMillis).pix = some 1
    ∧ (mosaicByDateSpec twoPeriodCollection 0 weekMillis).numbImages = 1
    ∧ mosaicByDate twoPeriodCollection 0 ≠ mosaicByDateSpec twoPeriodCollection 0 weekMillis := by
  refine ⟨rfl, rfl, rfl, rfl, fun h => ?_⟩
  have hpix := congrArg Composite.pix h
  rw [show (mosaicByDate twoPeriodCollection 0).pix = some 0 from rfl,
    show (mosaicByDateSpec twoPeriodCollection 0 weekMillis).pix = some 1 from rfl] at hpix
  simp at hpix

/-- C3: the compositor median of water labels {1, 1, 0} from three images
is 1; the median of {1, 0} from two images is 0 (the tie resolves low);
and a compositor call over an empty contributing set yields a composite
with no coverage (a masked pixel and a zero image count), not a crash. -/
theorem mosaicByDate_median_behavior :
    (mosaicByDate [⟨0, some 1⟩, ⟨1, some 1⟩, ⟨2, some 0⟩] 0).pix = some 1
    ∧ (mosaicByDate [⟨0, some 1⟩, ⟨1, some 0⟩] 0).pix = some 0
    ∧ (mosaicByDate [] 0).pix = none
    ∧ (mosaicByDate [] 0).numbImages = 0 := by
  refine ⟨rfl, rfl, rfl, rfl⟩

/-- A pixel of a composite as the masking and zonal-aggregation stages see
it: whether it intersects the reduction geometry, whether it is still
unmasked after the upstream masks (QA, wind, HAND), its classification
band value, and its pixel area in square metres. -/
structure CompositePixel where
  inRegion : Bool
  valid : Bool
  classification : ℚ
  area : ℚ
deriving DecidableEq, Repr

/-- Embedding of `maskNonWater` (constructTimeSeries.js lines 379-381):
`im.updateMask(im.select(classification).lt(1))` — updateMask KEEPS the
pixels where the mask is nonzero, so this keeps exactly the pixels whose
classification label is below 1. -/
def maskNonWater (im : List CompositePixel) : List CompositePixel :=
  im.map (fun p => { p with valid := p.valid && decide (p.classification < 1) })

/-- Embedding of `calculateWaterArea_AOI` (constructTimeSeries.js lines
393-416): multiply the composite by pixelArea/1e6, then sum-reduce over
the region geometry.  The sum over an empty pixel set is 0, modelled from
the spec (the sum reducer is a raster service primitive). -/
def calculateWaterArea_AOI (im : List CompositePixel) : ℚ :=
  ((im.filter (fun p => p.valid && p.inRegion)).map
    (fun p => p.classification * (p.area / 1000000))).sum

/-- Modelled from the spec: the zonal aggregation contract —
water_area_m2 is the sum of pixel_area_m2 over exactly the unmasked
pixels inside the region whose classification label equals 1. -/
def waterAreaSpec (im : List CompositePixel) : ℚ :=
  ((im.filter (fun p => p.valid && p.inRegion && decide (p.classification = 1))).map
    (fun p => p.area)).sum

/-- A composite holding a single fully covered in-region 30 m water pixel
(classification 1, area 900 square metres). -/
def onePixelWaterComposite : List CompositePixel :=
  [⟨true, true, 1, 900⟩]

/-- C1 fails on the code: on a composite whose only in-region pixel is
water, the pipeline `calculateWaterArea_AOI` after `maskNonWater` returns
0 — `maskNonWater` masks the water pixels out and keeps the non-water
ones, so only label-0 pixels are ever summed — whereas the zonal contract
of the specification gives 900. -/
theorem maskNonWater_inverted :
    calculateWaterArea_AOI (maskNonWater onePixelWaterComposite) = 0
    ∧ waterAreaSpec onePixelWaterComposite = 900
    ∧ calculateWaterArea_AOI (maskNonWater onePixelWaterComposite)
        ≠ waterAreaSpec onePixelWaterComposite := by
  have h1 : calculateWaterArea_AOI (maskNonWater onePixelWaterComposite) = 0 := rfl
  have h2 : waterAreaSpec onePixelWaterComposite = 900 := by
    show (900 : ℚ) + 0 = 900
    norm_num
  refine ⟨h1, h2, ?_⟩
  rw [h1, h2]
  norm_num

/-- C8: the area value emitted for a region is never negative — whenever
every pixel has a nonnegative classification label and a nonnegative pixel
area, the aggregated value is nonnegative — and a region containing zero
water pixels (every in-region pixel has label 0) yields exactly 0, never a
negative value (and never null: the embedding of the sum reduction is
total, returning 0 on an empty pixel set as the spec requires). -/
theorem calculateWaterArea_nonneg (im : List CompositePixel)
    (hpos : ∀ p ∈ im, 0 ≤ p.classification ∧ 0 ≤ p.area) :
    0 ≤ calculateWaterArea_AOI (maskNonWater im)
    ∧ ((∀ p ∈ im, p.inRegion = true → p.classification = 0) →
        calculateWaterArea_AOI (maskNonWater im) = 0) := by
  constructor
  · apply List.sum_nonneg
    intro x hx
    obtain ⟨p, hp, rfl⟩ := List.mem_map.mp hx
    have hp2 := (List.mem_filter.mp hp).1
    obtain ⟨q, hq, rfl⟩ := List.mem_map.mp hp2
    have hq2 := hpos q hq
    have harea : (0 : ℚ) ≤ q.area / 1000000 := div_nonneg hq2.2 (by norm_num)
    exact mul_nonneg hq2.1 harea
  · intro hzero
    apply List.sum_eq_zero
    intro x hx
    obtain ⟨p, hp, rfl⟩ := List.mem_map.mp hx
    have hp1 := List.mem_filter.mp hp
    obtain ⟨q, hq, rfl⟩ := List.mem_map.mp hp1.1
    have hreg : q.inRegion = true := by
      have := hp1.2
      simp only [Bool.and_eq_true] at this
      exact this.2
    rw [hzero q hq hreg]
    ring

theorem calculateWaterArea_nonneg_witness :
    0 ≤ calculateWaterArea_AOI (maskNonWater onePixelWaterComposite)
    ∧ calculateWaterArea_AOI (maskNonWater [⟨true, true, 0, 900⟩]) = 0 := by
  have hpos1 : ∀ p ∈ onePixelWaterComposite, (0 : ℚ) ≤ p.classification ∧ (0 : ℚ) ≤ p.area := by
    intro p hp
    rw [onePixelWaterComposite, List.mem_singleton] at hp
    subst hp
    exact ⟨by norm_num, by norm_num⟩
  have hpos2 : ∀ p ∈ [(⟨true, true, 0, 900⟩ : CompositePixel)],
      (0 : ℚ) ≤ p.classification ∧ (0 : ℚ) ≤ p.area := by
    intro p hp
    rw [List.mem_singleton] at hp
    subst hp
    exact ⟨le_refl 0, by norm_num⟩
  have hzero : ∀ p ∈ [(⟨true, true, 0, 900⟩ : CompositePixel)],
      p.inRegion = true → p.classification = 0 := by
    intro p hp _
    rw [List.mem_singleton] at hp
    subst hp
    rfl
  exact ⟨(calculateWaterArea_nonneg onePixelWaterComposite hpos1).1,
    (calculateWaterArea_nonneg [⟨true, true, 0, 900⟩] hpos2).2 hzero⟩

/-- The maximum over an image collection (the `.max()` reductions of
constructTimeSeries.js lines 336 and 338); an empty collection yields no
value. -/
def maxQ : List ℚ → Option ℚ
  | [] => none
  | x :: xs => some (xs.foldl max x)

/-- The wind-speed test inside `windMask` (constructTimeSeries.js lines
339-344): with a the per-period maximum of the v wind component and b the
maximum of the u component, the pixel is kept where
sqrt(a^2 + b^2) * 3.6 is below 12.0 km/h. -/
def windKeep (a b : ℚ) : Prop :=
  Real.sqrt ((a : ℝ) ^ 2 + (b : ℝ) ^ 2) * 3.6 < 12

theorem windKeep_iff (a b : ℚ) : windKeep a b ↔ a ^ 2 + b ^ 2 < 100 / 9 := by
  unfold windKeep
  rw [show (12 : ℝ) = 10 / 3 * 3.6 by norm_num,
    mul_lt_mul_right (show (0 : ℝ) < 3.6 by norm_num),
    Real.sqrt_lt' (show (0 : ℝ) < 10 / 3 by norm_num),
    show ((10 : ℝ) / 3) ^ 2 = 100 / 9 by norm_num,
    show ((a : ℝ) ^ 2 + (b : ℝ) ^ 2) = ((a ^ 2 + b ^ 2 : ℚ) : ℝ) by push_cast; ring,
    show ((100 : ℝ) / 9) = ((100 / 9 : ℚ) : ℝ) by norm_num]
  exact Rat.cast_lt

instance (a b : ℚ) : Decidable (windKeep a b) :=
  decidable_of_iff _ (windKeep_iff a b).symm

/-- Embedding of `windMask` (constructTimeSeries.js lines 333-346): take
the per-pixel maxima of the v and u wind components over the wind
collection of the query period (each list element is a (u, v) sample),
form the speed sqrt(v_max^2 + u_max^2) * 3.6 km/h, and keep the input
pixel only where that speed is below 12.0; when the wind collection is
empty the mask has no data and the pixel is excluded. -/
def windMask (wx : List (ℚ × ℚ)) (im : Option ℚ) : Option ℚ :=
  match maxQ (wx.map Prod.snd), maxQ (wx.map Prod.fst) with
  | some a, some b => if windKeep a b then im else none
  | _, _ => none

/-- The boxcar smoothing and re-threshold step applied to each classified
radar image (constructTimeSeries.js lines 348-349): convolve the
classification band with the normalized 5-pixel square kernel — the
convolution is a raster service primitive, passed in as a function — then
threshold the result at > 0.97 to a 0/1 label. -/
def smoothStep (convolve : Option ℚ → Option ℚ) (im : Option ℚ) : Option ℚ :=
  (convolve im).map (fun s => if 0.97 < s then 1 else 0)

/-- Embedding of the radar post-classification chain `S1_classified`
(constructTimeSeries.js lines 348-350): smooth and re-threshold each
classified image, THEN apply the wind mask. -/
def S1_classified (convolve : Option ℚ → Option ℚ) (wx : List (ℚ × ℚ))
    (ims : List (Option ℚ)) : List (Option ℚ) :=
  (ims.map (smoothStep convolve)).map (windMask wx)

/-- The stages of the two classified chains of constructTimeSeries.js. -/
inductive Stage
  | classifyOptical | classifyRadar | boxcarSmooth | threshold097 | windFilter
deriving DecidableEq, Repr

/-- Stage order of S1_classified: classify (line 320), boxcar convolve and
re-threshold (lines 348-349), wind mask (line 350). -/
def S1_stages : List Stage :=
  [Stage.classifyRadar, Stage.boxcarSmooth, Stage.threshold097, Stage.windFilter]

/-- Stage order of L8S2_classified (line 283): classification only; no
wind mask is applied to optical output. -/
def L8S2_stages : List Stage := [Stage.classifyOptical]

/-- C6: with per-period wind-component maxima a (v) and b (u), the wind
mask excludes a live radar pixel exactly when sqrt(a^2 + b^2) * 3.6 km/h
is at least 12.0, and retains it unchanged otherwise; the mask is applied
after the boxcar smoothing and re-threshold of the radar chain, and no
wind stage occurs in the optical chain. -/
theorem windMask_excludes_iff (convolve : Option ℚ → Option ℚ)
    (wx : List (ℚ × ℚ)) (ims : List (Option ℚ)) (a b : ℚ)
    (hv : maxQ (wx.map Prod.snd) = some a)
    (hu : maxQ (wx.map Prod.fst) = some b) :
    S1_classified convolve wx ims = (ims.map (smoothStep convolve)).map (windMask wx)
    ∧ (∀ x : ℚ, windMask wx (some x) = if windKeep a b then some x else none)
    ∧ (∀ x : ℚ, windMask wx (some x) = none ↔
        12 ≤ Real.sqrt ((a : ℝ) ^ 2 + (b : ℝ) ^ 2) * 3.6)
    ∧ Stage.windFilter ∈ S1_stages
    ∧ S1_stages.indexOf Stage.boxcarSmooth < S1_stages.indexOf Stage.windFilter
    ∧ Stage.windFilter ∉ L8S2_stages := by
  have h2 : ∀ x : ℚ, windMask wx (some x) = if windKeep a b then some x else none := by
    intro x
    unfold windMask
    rw [hv, hu]
  refine ⟨rfl, h2, ?_, by decide, by decide, by decide⟩
  intro x
  rw [h2 x]
  by_cases h : windKeep a b
  · rw [if_pos h]
    simp only [reduceCtorEq, false_iff, not_le]
    exact h
  · rw [if_neg h]
    simp only [true_iff]
    exact not_lt.mp h

theorem windMask_excludes_iff_witness :
    windMask [((4 : ℚ), (3 : ℚ))] (some (1 : ℚ)) = none := by
  have h := windMask_excludes_iff (fun x => x) [((4 : ℚ), (3 : ℚ))] [] 3 4 rfl rfl
  refine (h.2.2.1 1).mpr ?_
  rw [show (((3 : ℚ) : ℝ)) ^ 2 + (((4 : ℚ) : ℝ)) ^ 2 = 5 ^ 2 by norm_num,
    Real.sqrt_sq (show (0 : ℝ) ≤ 5 by norm_num)]
  norm_num

/-- A fitted random-forest configuration as built by
`ee.Classifier.smileRandomForest(n).train(...)`: the tree count passed to
smileRandomForest and the training dictionary fields. -/
structure RFClassifier where
  numberOfTrees : ℕ
  classProperty : String
  inputProperties : List String
deriving DecidableEq, Repr

/-- Predictor band names of the optical model (constructTimeSeries.js
line 186). -/
def optical_bands : List String := ["MNDWI", "AWEIsh", "TWC", "NDVI"]

/-- Predictor band names of the radar model (constructTimeSeries.js
line 249). -/
def S1_bands : List String := ["VV", "VH", "angle"]

/-- Embedding of `optical_classifier` (constructTimeSeries.js lines
197-201): smileRandomForest called with the literal 500. -/
def optical_classifier : RFClassifier :=
  { numberOfTrees := 500, classProperty := "water", inputProperties := optical_bands }

/-- Embedding of `S1_classifier` (constructTimeSeries.js lines 251-255):
smileRandomForest called with the literal 500. -/
def S1_classifier : RFClassifier :=
  { numberOfTrees := 500, classProperty := "water", inputProperties := S1_bands }

/-- The full parameter surface of the exported entry point
`exports.classifyWater(AOI, start_date, end_date)` (SWIFT_classify line
520): an AOI identifier and the date range.  No ensemble-size parameter
exists. -/
structure ClassifyWaterArgs where
  AOIid : ℕ
  start_date : ℕ
  end_date : ℕ
deriving DecidableEq, Repr

/-- The optical and radar classifiers built inside classifyWater
(SWIFT_classify lines 648-652 and 701-705): both pass the literal 500 to
smileRandomForest, whatever the arguments were. -/
def classifyWaterClassifiers (_args : ClassifyWaterArgs) : RFClassifier × RFClassifier :=
  ({ numberOfTrees := 500, classProperty := "water",
     inputProperties := ["MNDWI", "AWEIsh", "TCW", "NDVI"] },
   { numberOfTrees := 500, classProperty := "water", inputProperties := S1_bands })

/-- C7 fails as stated: the ensemble size is the hardcoded literal 500,
not an external parameter.  At two entry-point configurations differing in
every available parameter (AOI and both dates), all four trained
ensembles still have exactly 500 trees; the parameter record offers no
ensemble-size field at all. -/
theorem ensembleSize_not_configurable :
    (⟨0, 0, 0⟩ : ClassifyWaterArgs) ≠ (⟨1, 7, 99⟩ : ClassifyWaterArgs)
    ∧ (classifyWaterClassifiers ⟨0, 0, 0⟩).1.numberOfTrees = 500
    ∧ (classifyWaterClassifiers ⟨0, 0, 0⟩).2.numberOfTrees = 500
    ∧ (classifyWaterClassifiers ⟨1, 7, 99⟩).1.numberOfTrees = 500
    ∧ (classifyWaterClassifiers ⟨1, 7, 99⟩).2.numberOfTrees = 500 := by
  exact ⟨by decide, rfl, rfl, rfl, rfl⟩

/-- C7 amended: both modalities train a bagged ensemble of decision trees
with ensemble size 500, but the size is the literal 500 hardcoded at each
training call — the same for every value of the external parameter
surface — not an externally configurable parameter. -/
theorem ensembleSize_fixed_500 (args : ClassifyWaterArgs) :
    optical_classifier.numberOfTrees = 500
    ∧ S1_classifier.numberOfTrees = 500
    ∧ (classifyWaterClassifiers args).1.numberOfTrees = 500
    ∧ (classifyWaterClassifiers args).2.numberOfTrees = 500 :=
  ⟨rfl, rfl, rfl, rfl⟩

/-- C9: every optical image in a query collection passed the
calendarRange(3, 11, month) filter, so its acquisition month lies between
March and November inclusive; a December, January or February image is
never a member, even one inside the bounds and the requested date range. -/
theorem opticalQuery_month_range (t : ℚ) (ims : List OpticalRaw) (im : OpticalRaw) :
    (im ∈ opticalQueryFiltered t ims → 3 ≤ im.month ∧ im.month ≤ 11)
    ∧ (im.month = 12 ∨ im.month = 1 ∨ im.month = 2 →
        im ∉ opticalQueryFiltered t ims) := by
  constructor
  · intro hmem
    have h1 := (List.mem_filter.mp hmem).1
    have h2 := (List.mem_filter.mp h1).2
    simp only [Bool.and_eq_true, decide_eq_true_eq] at h2
    exact h2
  · intro hmonth hmem
    have h1 := (List.mem_filter.mp hmem).1
    have h2 := (List.mem_filter.mp h1).2
    simp only [Bool.and_eq_true, decide_eq_true_eq] at h2
    obtain ⟨h3, h4⟩ := h2
    rcases hmonth with h | h | h <;> omega

/-- A January optical image lying inside the bounds and the query date
range. -/
def januaryImage : OpticalRaw :=
  { inBounds := true, inDateRange := true, month := 1, cloudCover := 0,
    qa := 0, sr := fun _ => 0 }

theorem opticalQuery_month_range_witness :
    januaryImage ∉ opticalQueryFiltered 10 [januaryImage] :=
  (opticalQuery_month_range 10 [januaryImage] januaryImage).2 (Or.inr (Or.inl rfl))

/-- A pixel of a preprocessed Sentinel-1 image in the radar
accuracy-assessment script (src/unnamed/part_000): the band the later
stages read (vv) and the windy band that its windMask reads — a band S1
images do not carry, hence none there. -/
structure AAImage where
  windy : Option ℚ
  vv : Option ℚ
deriving DecidableEq, Repr

/-- Embedding of `windMask` of the radar accuracy-assessment script
(src/unnamed/part_000 lines 135-138): the mask is Image(0) set to 1 where
the windy band is below 12, then updateMask — a pixel survives only where
its windy band holds a value below 12; all bands are masked otherwise. -/
def AA_windMask (im : AAImage) : AAImage :=
  match im.windy with
  | some w => if w < 12 then im else { windy := none, vv := none }
  | none => { windy := none, vv := none }

/-- Modelled from the spec: the raster service mosaic primitive — images
later in the collection take priority, so a pixel takes the last unmasked
value, and none when every image is masked there. -/
def mosaic (l : List (Option ℚ)) : Option ℚ :=
  l.foldl (fun acc p => match p with | some v => some v | none => acc) none

/-- Embedding of src/unnamed/part_000 lines 140-143: line 140 evaluates
`S1_preprocess.map(windMask)` — a NEW collection; the original binding is
not reassigned — and binds the value to nothing; line 143 then computes
S1_mosaic from the original collection. -/
def AA_S1_mosaic (S1_preprocess : List AAImage) : Option ℚ :=
  let _discarded := S1_preprocess.map AA_windMask
  mosaic (S1_preprocess.map (fun im => im.vv))

/-- An S1 preprocessed pixel: a vv value and no windy band. -/
def aaPixel : AAImage := { windy := none, vv := some 1 }

/-- C10: the mosaic the accuracy-assessment script samples for training
and validation is computed from the unmasked collection — the mapped,
wind-masked collection is discarded — so the wind mask has no effect on
that script, even at inputs where using the masked collection would have
changed the mosaic (here the masked mosaic is none while the script
mosaic is some 1). -/
theorem AA_windMask_discarded :
    (∀ S1_preprocess : List AAImage,
      AA_S1_mosaic S1_preprocess = mosaic (S1_preprocess.map (fun im => im.vv)))
    ∧ AA_S1_mosaic [aaPixel] = some 1
    ∧ mosaic (([aaPixel].map AA_windMask).map (fun im => im.vv)) = none
    ∧ mosaic (([aaPixel].map AA_windMask).map (fun im => im.vv)) ≠ AA_S1_mosaic [aaPixel] := by
  refine ⟨fun _ => rfl, rfl, rfl, ?_⟩
  intro h
  rw [show mosaic (([aaPixel].map AA_windMask).map (fun im => im.vv)) = none from rfl,
    show AA_S1_mosaic [aaPixel] = some 1 from rfl] at h
  simp at h
